import Mathlib

/-!
Shallow embedding of the content-generation and mutation engine of `main.py`
(CriM🔥Son API): SEO metadata extraction (`seo_from_prompt`), full document
synthesis (`generate_site_html`), the rule-based chat-edit interpreter
(`project_chat`), direct code replacement (`update_code`), and the project
CRUD endpoints, together with proofs about them.

Strings are modelled as Lean `String` (a wrapper around `List Char`), and the
Python string builtins used by the source (`lower`, `strip`, `capitalize`,
`split`, `isalpha`, `replace`, `in`, `join`, slicing) are embedded below as
structurally recursive functions so that every definition is executable by
kernel reduction.  Python's `lower`/`capitalize`/`isalpha` are full-Unicode;
the source only ever matches ASCII keyword literals and the embedding uses the
ASCII case maps (`Char.toLower` / `Char.toUpper`), which agree with Python on
the ASCII range relevant to every rule and literal in the source.
Timestamps (`datetime.now(...)`) are not modelled except for the calendar
year interpolated into the synthesized footer, which is passed explicitly as
a `Nat` parameter.
-/

/-- Python `str.isspace` characters stripped by `str.strip()` (ASCII range). -/
def pyIsSpace (c : Char) : Bool :=
  c == ' ' || c == '\t' || c == '\n' || c == '\r' || c == '\x0b' || c == '\x0c'

/-- `hasPrefixL pat s` holds when the character list `pat` is a prefix of `s`. -/
def hasPrefixL : List Char → List Char → Bool
  | [], _ => true
  | _ :: _, [] => false
  | p :: ps, c :: cs => p == c && hasPrefixL ps cs

/-- `hasInfixL pat s` holds when `pat` occurs as a contiguous sublist of `s`;
this embeds Python's `pat in s` substring test. -/
def hasInfixL (pat : List Char) : List Char → Bool
  | [] => hasPrefixL pat []
  | c :: cs => hasPrefixL pat (c :: cs) || hasInfixL pat cs

/-- Python `pat in s` on strings. -/
def containsSubstr (s pat : String) : Bool :=
  hasInfixL pat.data s.data

/-- Python `str.lower()` (ASCII case map; every keyword matched by the source
is ASCII). -/
def lowerStr (s : String) : String :=
  ⟨s.data.map Char.toLower⟩

/-- Python `str.strip()`: drop leading and trailing whitespace. -/
def pyStrip (s : String) : String :=
  ⟨((s.data.dropWhile pyIsSpace).reverse.dropWhile pyIsSpace).reverse⟩

/-- Python `str.capitalize()`: first character uppercased, all remaining
characters lowercased. -/
def pyCapitalize : List Char → List Char
  | [] => []
  | c :: cs => Char.toUpper c :: cs.map Char.toLower

/-- One fuel-indexed step list for Python `str.replace`: scan left to right,
replacing each non-overlapping occurrence of `pat`.  The fuel is an upper
bound on the input length (each step consumes at least one character), kept
so the recursion is structural and kernel-reducible.  The source only calls
`replace` with non-empty patterns. -/
def replFuel (pat rep : List Char) : Nat → List Char → List Char
  | _, [] => []
  | 0, s => s
  | n + 1, c :: cs =>
    if !pat.isEmpty && hasPrefixL pat (c :: cs) then
      rep ++ replFuel pat rep n (cs.drop (pat.length - 1))
    else
      c :: replFuel pat rep n cs

/-- Python `s.replace(pat, rep)` (non-empty `pat`). -/
def pyReplace (s pat rep : String) : String :=
  ⟨replFuel pat.data rep.data s.data.length s.data⟩

/-- Count the non-overlapping occurrences of `pat`, scanning exactly like
`replFuel`. -/
def countFuel (pat : List Char) : Nat → List Char → Nat
  | _, [] => 0
  | 0, _ => 0
  | n + 1, c :: cs =>
    if !pat.isEmpty && hasPrefixL pat (c :: cs) then
      1 + countFuel pat n (cs.drop (pat.length - 1))
    else
      countFuel pat n cs

/-- Number of non-overlapping occurrences of the pattern `pat` in `s`. -/
def countOccur (s pat : String) : Nat :=
  countFuel pat.data s.data.length s.data

/-- Python `str.split()` (no argument): split on runs of whitespace,
discarding empty tokens.  `cur` accumulates the current token reversed. -/
def pySplitAux (cur : List Char) : List Char → List (List Char)
  | [] => if cur.isEmpty then [] else [cur.reverse]
  | c :: cs =>
    if pyIsSpace c then
      if cur.isEmpty then pySplitAux [] cs else cur.reverse :: pySplitAux [] cs
    else
      pySplitAux (c :: cur) cs

/-- Python `s.split()`. -/
def pySplit (s : List Char) : List (List Char) :=
  pySplitAux [] s

/-- Python `w.isalpha()` for a token (ASCII letters; `""` is not alpha). -/
def pyIsAlphaTok (t : List Char) : Bool :=
  !t.isEmpty && t.all Char.isAlpha

/-- `joinWith sep [t1, …, tn] = t1 ++ sep ++ t2 ++ … ++ sep ++ tn`;
embeds Python `sep.join(tokens)`. -/
def joinWith (sep : List Char) : List (List Char) → List Char
  | [] => []
  | [t] => t
  | t :: t' :: ts => t ++ sep ++ joinWith sep (t' :: ts)

/-- Python `sep.join(tokens)` producing a `String`. -/
def joinWithStr (sep : String) (ts : List (List Char)) : String :=
  ⟨joinWith sep.data ts⟩

/-- Python `x or d` for `x : Optional[str]`: `None` and `""` are falsy. -/
def pyOr (x : Option String) (d : String) : String :=
  match x with
  | none => d
  | some s => if s.data.isEmpty then d else s

/-- `noMatchUpto pat k s` scans the first `k` start positions of `s` and
holds when no occurrence of `pat` begins there; used to reason about the
left-to-right scans `replFuel`/`countFuel` piecewise. -/
def noMatchUpto (pat : List Char) : Nat → List Char → Bool
  | _, [] => true
  | 0, _ => true
  | k + 1, c :: cs => !hasPrefixL pat (c :: cs) && noMatchUpto pat k cs

/-- `pyReplace` at the `List Char` level (the fuel at its canonical value). -/
def pyReplaceL (pat rep s : List Char) : List Char :=
  replFuel pat rep s.length s

/-- `countOccur` at the `List Char` level. -/
def countL (pat s : List Char) : Nat :=
  countFuel pat s.length s
def htmlChunk0 : String :=
    "\n" ++
    "<!doctype html>\n" ++
    "<html lang=\"en\">\n" ++
    "  <head>\n" ++
    "    <meta charset=\"UTF-8\" />\n" ++
    "    <meta name=\"viewport\" content=\"width=device-width, initial-scale=1.0\" />\n" ++
    "    <title>"

def htmlChunk1 : String :=
    "</title>\n" ++
    "    <meta name=\"description\" content=\""

def htmlChunk2 : String :=
    "\" />\n" ++
    "    <meta name=\"keywords\" content=\""

def htmlChunk3 : String :=
    "\" />\n" ++
    "    <link rel=\"preconnect\" href=\"https://fonts.googleapis.com\" />\n" ++
    "    <link rel=\"preconnect\" href=\"https://fonts.gstatic.com\" crossorigin />\n" ++
    "    <link href=\"https://fonts.googleapis.com/css2?family=Inter:wght@300;400;600;800&display=swap\" rel=\"stylesheet\" />\n" ++
    "    <script src=\"https://cdn.tailwindcss.com\"></script>\n" ++
    "    <style>\n" ++
    "      :root \x7b --accent: "

def htmlChunk4 : String :=
    "; \x7d\n" ++
    "      html, body \x7b height: 100%; \x7d\n" ++
    "      body \x7b font-family: \x27Inter\x27, system-ui, -apple-system, Segoe UI, Roboto, sans-serif; \x7d\n" ++
    "      .crimson-gradient \x7b background: radial-gradient(1200px 600px at 50% -20%, rgba(220,20,60,0.25), transparent),\n" ++
    "                           radial-gradient(800px 400px at 120% 20%, rgba(99,102,241,0.15), transparent),\n" ++
    "                           #0b0b10; \x7d\n" ++
    "      .glass \x7b backdrop-filter: blur(12px); background: rgba(255,255,255,0.06); border: 1px solid rgba(255,255,255,0.08); \x7d\n" ++
    "      .btn \x7b background: var(--accent); color: white; box-shadow: 0 10px 30px rgba(220,20,60,0.35); \x7d\n" ++
    "      .btn:hover \x7b filter: brightness(1.05); transform: translateY(-1px); \x7d\n" ++
    "    </style>\n" ++
    "  </head>\n" ++
    "  <body class=\"min-h-full crimson-gradient text-white\">\n" ++
    "    <header class=\"sticky top-0 z-50 border-b border-white/10 bg-black/30 backdrop-blur\">\n" ++
    "      <div class=\"max-w-7xl mx-auto px-6 py-4 flex items-center justify-between\">\n" ++
    "        <a href=\"#\" class=\"font-extrabold tracking-tight text-xl\">CriM🔥Son</a>\n" ++
    "        <nav class=\"hidden md:flex gap-8 text-white/80\">\n" ++
    "          <a href=\"#features\" class=\"hover:text-white transition\">Features</a>\n" ++
    "          <a href=\"#templates\" class=\"hover:text-white transition\">Templates</a>\n" ++
    "          <a href=\"#contact\" class=\"hover:text-white transition\">Contact</a>\n" ++
    "        </nav>\n" ++
    "        <a href=\"#cta\" class=\"btn px-4 py-2 rounded-lg font-semibold\">Get Started</a>\n" ++
    "      </div>\n" ++
    "    </header>\n" ++
    "\n" ++
    "    <section class=\"relative\" aria-label=\"Hero\">\n" ++
    "      <div class=\"absolute inset-0 opacity-80\" style=\"pointer-events:none\">\n" ++
    "        <iframe src=\""

def htmlChunk5 : String :=
    "\" title=\"AI Aura\" style=\"width:100%;height:100%;border:0;\"></iframe>\n" ++
    "      </div>\n" ++
    "      <div class=\"relative z-10 max-w-5xl mx-auto px-6 pt-28 pb-24 text-center\">\n" ++
    "        <h1 class=\"text-4xl md:text-6xl font-extrabold leading-tight\">"

def htmlChunk6 : String :=
    "</h1>\n" ++
    "        <p class=\"mt-6 text-white/80 text-lg md:text-xl\">Production-ready site generated instantly. Clean, accessible, responsive, and fast.</p>\n" ++
    "        <div class=\"mt-10 flex items-center justify-center gap-4\" id=\"cta\">\n" ++
    "          <a href=\"#contact\" class=\"btn px-6 py-3 rounded-xl font-semibold\">Start Now</a>\n" ++
    "          <a href=\"#features\" class=\"px-6 py-3 rounded-xl font-semibold glass\">Explore Features</a>\n" ++
    "        </div>\n" ++
    "      </div>\n" ++
    "    </section>\n" ++
    "\n" ++
    "    <main class=\"relative z-10\">\n" ++
    "      <section id=\"features\" class=\"max-w-6xl mx-auto px-6 py-20 grid md:grid-cols-3 gap-6\">\n" ++
    "        <div class=\"glass rounded-2xl p-6\">\n" ++
    "          <h3 class=\"text-xl font-bold\">Instant Preview</h3>\n" ++
    "          <p class=\"text-white/80 mt-2\">Your site renders as you describe it. No waiting, no compiling.</p>\n" ++
    "        </div>\n" ++
    "        <div class=\"glass rounded-2xl p-6\">\n" ++
    "          <h3 class=\"text-xl font-bold\">Clean Code</h3>\n" ++
    "          <p class=\"text-white/80 mt-2\">Accessible, semantic HTML with responsive layouts out of the box.</p>\n" ++
    "        </div>\n" ++
    "        <div class=\"glass rounded-2xl p-6\">\n" ++
    "          <h3 class=\"text-xl font-bold\">SEO Ready</h3>\n" ++
    "          <p class=\"text-white/80 mt-2\">Meta tags, performance hints, and fast loading by default.</p>\n" ++
    "        </div>\n" ++
    "      </section>\n" ++
    "\n" ++
    "      <section id=\"templates\" class=\"max-w-6xl mx-auto px-6 pb-24\">\n" ++
    "        <h2 class=\"text-2xl font-bold mb-6\">Featured Sections</h2>\n" ++
    "        <div class=\"grid md:grid-cols-3 gap-6\">\n" ++
    "          <article class=\"glass rounded-xl overflow-hidden\">\n" ++
    "            <img src=\"https://picsum.photos/seed/hero/800/500\" alt=\"Placeholder image\" class=\"w-full h-40 object-cover\" />\n" ++
    "            <div class=\"p-5\">\n" ++
    "              <h3 class=\"font-semibold\">Hero + CTA</h3>\n" ++
    "              <p class=\"text-white/80 text-sm mt-1\">Crisp hero section with strong call-to-action.</p>\n" ++
    "            </div>\n" ++
    "          </article>\n" ++
    "          <article class=\"glass rounded-xl overflow-hidden\">\n" ++
    "            <img src=\"https://picsum.photos/seed/feature/800/500\" alt=\"Placeholder image\" class=\"w-full h-40 object-cover\" />\n" ++
    "            <div class=\"p-5\">\n" ++
    "              <h3 class=\"font-semibold\">Feature Grid</h3>\n" ++
    "              <p class=\"text-white/80 text-sm mt-1\">Explain value with icons and concise text.</p>\n" ++
    "            </div>\n" ++
    "          </article>\n" ++
    "          <article class=\"glass rounded-xl overflow-hidden\">\n" ++
    "            <img src=\"https://picsum.photos/seed/contact/800/500\" alt=\"Placeholder image\" class=\"w-full h-40 object-cover\" />\n" ++
    "            <div class=\"p-5\">\n" ++
    "              <h3 class=\"font-semibold\">Contact Form</h3>\n" ++
    "              <p class=\"text-white/80 text-sm mt-1\">Accessible form with client-side validation.</p>\n" ++
    "            </div>\n" ++
    "          </article>\n" ++
    "        </div>\n" ++
    "      </section>\n" ++
    "\n" ++
    "      <section id=\"contact\" class=\"max-w-2xl mx-auto px-6 pb-24\">\n" ++
    "        <div class=\"glass rounded-2xl p-8\">\n" ++
    "          <h2 class=\"text-2xl font-bold\">Get in touch</h2>\n" ++
    "          <form class=\"mt-6 grid gap-4\" onsubmit=\"event.preventDefault(); alert(\x27Submitted!\x27)\">\n" ++
    "            <div>\n" ++
    "              <label class=\"block text-sm text-white/70\">Name</label>\n" ++
    "              <input class=\"w-full mt-1 p-3 rounded-lg bg-white/10 border border-white/10 outline-none focus:border-white/30\" required />\n" ++
    "            </div>\n" ++
    "            <div>\n" ++
    "              <label class=\"block text-sm text-white/70\">Email</label>\n" ++
    "              <input type=\"email\" class=\"w-full mt-1 p-3 rounded-lg bg-white/10 border border-white/10 outline-none focus:border-white/30\" required />\n" ++
    "            </div>\n" ++
    "            <div>\n" ++
    "              <label class=\"block text-sm text-white/70\">Message</label>\n" ++
    "              <textarea rows=\"4\" class=\"w-full mt-1 p-3 rounded-lg bg-white/10 border border-white/10 outline-none focus:border-white/30\" required></textarea>\n" ++
    "            </div>\n" ++
    "            <button class=\"btn px-5 py-3 rounded-xl font-semibold\">Send</button>\n" ++
    "          </form>\n" ++
    "        </div>\n" ++
    "      </section>\n" ++
    "    </main>\n" ++
    "\n" ++
    "    <footer class=\"border-t border-white/10 py-10 text-center text-white/60\">\n" ++
    "      <p>© "

def htmlChunk7 : String :=
    " CriM🔥Son — Generated by natural language</p>\n" ++
    "    </footer>\n" ++
    "  </body>\n" ++
    "</html>\n"

def pricingInsertion : String :=
    "\n" ++
    "<section id=\"pricing\" class=\"max-w-6xl mx-auto px-6 pb-24\">\n" ++
    "  <h2 class=\"text-2xl font-bold mb-6\">Pricing</h2>\n" ++
    "  <div class=\"grid md:grid-cols-3 gap-6\">\n" ++
    "    <div class=\"glass rounded-2xl p-6\"><h3 class=\"font-semibold\">Starter</h3><p class=\"text-4xl font-extrabold mt-2\">$0</p><p class=\"text-white/70 mt-2\">For experiments</p></div>\n" ++
    "    <div class=\"glass rounded-2xl p-6 border border-white/20\"><h3 class=\"font-semibold\">Pro</h3><p class=\"text-4xl font-extrabold mt-2\">$19</p><p class=\"text-white/70 mt-2\">For builders</p></div>\n" ++
    "    <div class=\"glass rounded-2xl p-6\"><h3 class=\"font-semibold\">Scale</h3><p class=\"text-4xl font-extrabold mt-2\">$99</p><p class=\"text-white/70 mt-2\">For teams</p></div>\n" ++
    "  </div>\n" ++
    "</section>\n"

/-- URL constant `spline` from `generate_site_html`. -/
def splineUrl : String :=
    "https://prod.spline.design/4cHQr84zOGAHOehh/scene.splinecode"

/-- Result record of `seo_from_prompt`. -/
structure SeoMeta where
  title : String
  description : String
  keywords : String
deriving DecidableEq, Repr

/-- `seo_from_prompt` (main.py lines 43–47):
`title = prompt.strip().capitalize()[:60]` with fallback `"CriM🔥Son Site"`
when falsy, `description = "Auto-generated website: " + prompt.strip()`,
`keywords = ", ".join([w for w in prompt.lower().split() if w.isalpha()][:8])`. -/
def seo_from_prompt (prompt : String) : SeoMeta :=
  let title : String := ⟨(pyCapitalize (pyStrip prompt).data).take 60⟩
  let description : String := "Auto-generated website: " ++ pyStrip prompt
  let keywords : String :=
    joinWithStr ", " (((pySplit (lowerStr prompt).data).filter pyIsAlphaTok).take 8)
  { title := if title.data.isEmpty then "CriM🔥Son Site" else title
    description := description
    keywords := keywords }

/-- `generate_site_html` (main.py lines 50–177): the f-string template with
its seven interpolations (`seo['title']`, `seo['description']`,
`seo['keywords']`, `accent`, `spline`, `prompt`, `datetime.now().year`).
The current year is a parameter since render time is not modelled. -/
def generate_site_html (prompt accent : String) (year : Nat) : String :=
  let seo := seo_from_prompt prompt
  htmlChunk0 ++ seo.title ++ htmlChunk1 ++ seo.description ++ htmlChunk2 ++
    seo.keywords ++ htmlChunk3 ++ accent ++ htmlChunk4 ++ splineUrl ++
    htmlChunk5 ++ prompt ++ htmlChunk6 ++ toString year ++ htmlChunk7

/-- Default accent color (keyword default `accent="#DC143C"` of
`generate_site_html`). -/
def defaultAccent : String := "#DC143C"

/-- Named transformation kinds of the chat-edit rule cascade (spec §4.3);
one variant per branch of the `if`/`elif` chain in `project_chat`. -/
inductive TransformationKind where
  | SciFiTheme
  | DarkMode
  | AddPricing
  | AccentRecolor
  | Regenerate
deriving DecidableEq, Repr

/-- The branch conditions of `project_chat` (main.py lines 298–330): the
message is lowercased once (`msg = req.message.lower()`) and the branches are
tried in source order, each testing literal substring containment. -/
def classify (message : String) : TransformationKind :=
  let msg := lowerStr message
  if containsSubstr msg "sci-fi" || containsSubstr msg "sci fi" then
    .SciFiTheme
  else if containsSubstr msg "make it dark" || containsSubstr msg "dark mode" then
    .DarkMode
  else if containsSubstr msg "add pricing" || containsSubstr msg "pricing" then
    .AddPricing
  else if containsSubstr msg "change accent" || containsSubstr msg "make it crimson"
      || containsSubstr msg "crimson" then
    .AccentRecolor
  else
    .Regenerate

/-- The exact replacement phrase of the sci-fi branch (main.py line 305; the
hyphen in `Sci‑fi` is U+2011). -/
def sciFiPhrase : String := "Sci‑fi neon aesthetic with holographic accents"

/-- The edit computation of `project_chat` (main.py lines 298–330): given the
project's stored `prompt` and current `html` and the chat `message`, produce
the new html and the note, one branch per `TransformationKind` with exactly
the replacements of the source. -/
def applyChatEdit (prompt html message : String) (year : Nat) : String × String :=
  match classify message with
  | .SciFiTheme =>
    let h1 := pyReplace (pyReplace html "#0b0b10" "#05060a")
      "rgba(99,102,241,0.15)" "rgba(56,189,248,0.18)"
    (pyReplace h1 "Production-ready" sciFiPhrase, "Applied sci-fi theme")
  | .DarkMode =>
    (pyReplace html "#0b0b10" "#0a0a0a", "Darkened base colors")
  | .AddPricing =>
    (pyReplace html "</main>" (pricingInsertion ++ "\n    </main>"),
     "Added pricing section")
  | .AccentRecolor =>
    (pyReplace html "--accent: #DC143C" "--accent: #b80f2a", "Adjusted accent color")
  | .Regenerate =>
    (generate_site_html (prompt ++ " — " ++ message) defaultAccent year,
     "Regenerated site with new instruction")

/-- A `conversation`/`history` entry (timestamps not modelled). -/
structure HistoryEntry where
  role : String
  content : String
deriving DecidableEq, Repr

/-- A `versions` entry (timestamps not modelled). -/
structure VersionEntry where
  html : String
  note : String
deriving DecidableEq, Repr

/-- A stored project document (main.py lines 226–241; `created_at`,
`updated_at` and the per-entry timestamps are not modelled). -/
structure Project where
  user_id : String
  name : String
  prompt : String
  html : String
  versions : List VersionEntry
  history : List HistoryEntry
  status : String
deriving DecidableEq, Repr

/-- `create_project` (main.py lines 220–243): synthesize the site and build
the stored project document.  `user_id = x_user_id or "guest"`;
`name = req.name or (req.prompt[:40] + "…" if len(req.prompt) > 40 else req.prompt)`. -/
def create_project (x_user_id : Option String) (prompt : String)
    (name : Option String) (year : Nat) : Project :=
  let html := generate_site_html prompt defaultAccent year
  { user_id := pyOr x_user_id "guest"
    name := pyOr name
      (if prompt.data.length > 40 then (⟨prompt.data.take 40⟩ : String) ++ "…" else prompt)
    prompt := prompt
    html := html
    versions := [{ html := html, note := "Initial generation" }]
    history := [{ role := "user", content := prompt },
                { role := "assistant", content := "Generated initial site" }]
    status := "draft" }

/-- The update applied by `update_code` (main.py lines 271–285) to the
matched project: `$set html`, `$push versions` a `"Manual edit"` entry. -/
def update_code_found (p : Project) (newHtml : String) : Project :=
  { p with html := newHtml
           versions := p.versions ++ [{ html := newHtml, note := "Manual edit" }] }

/-- The update applied by `project_chat` (main.py lines 332–342) to the
matched project, together with the returned note.  The `$push` document in
the source is a Python dict literal containing the key `"history"` twice
(once with the user entry, once with the assistant entry); Python keeps only
the last occurrence of a duplicated key, so the update pushes only the
assistant entry to `history` (plus the `versions` entry, whose key is
unique). -/
def project_chat_found (p : Project) (message : String) (year : Nat) :
    Project × String :=
  let r := applyChatEdit p.prompt p.html message year
  ({ p with html := r.1
            history := p.history ++ [{ role := "assistant", content := r.2 }]
            versions := p.versions ++ [{ html := r.1, note := r.2 }] }, r.2)

/-- Owner string used by every project endpoint: `x_user_id or "guest"`. -/
def headerOwner (x_user_id : Option String) : String :=
  pyOr x_user_id "guest"

/-- `db.projects.find_one({"_id": ObjectId(pid), "user_id": owner})` over an
in-memory store of `(id, project)` pairs. -/
def find_one (store : List (String × Project)) (pid owner : String) :
    Option Project :=
  (store.find? (fun e => e.1 == pid && e.2.user_id == owner)).map Prod.snd

/-- `GET /projects/{project_id}` (main.py lines 258–268): `None` result means
the 404 branch. -/
def get_project (store : List (String × Project)) (pid : String)
    (x_user_id : Option String) : Option Project :=
  find_one store pid (headerOwner x_user_id)

/-- `GET /projects` (main.py lines 246–255): the documents matching
`{"user_id": x_user_id or "guest"}`, limited to 50. -/
def list_projects (store : List (String × Project))
    (x_user_id : Option String) : List Project :=
  (((store.map Prod.snd).filter
      (fun p => p.user_id == headerOwner x_user_id)).take 50)

/-- `PUT /projects/{project_id}/code` (main.py lines 271–285): `None` means
the 404 branch, otherwise the updated project. -/
def update_code (store : List (String × Project)) (pid : String)
    (x_user_id : Option String) (newHtml : String) : Option Project :=
  (find_one store pid (headerOwner x_user_id)).map
    (fun p => update_code_found p newHtml)

/-- `POST /projects/{project_id}/chat` (main.py lines 288–344): `None` means
the 404 branch, otherwise the updated project and the returned note. -/
def project_chat (store : List (String × Project)) (pid : String)
    (x_user_id : Option String) (message : String) (year : Nat) :
    Option (Project × String) :=
  (find_one store pid (headerOwner x_user_id)).map
    (fun p => project_chat_found p message year)

/-- Modelled from the words of claim C6 (refinement comparison only): title =
prompt trimmed of surrounding whitespace with its first character capitalized
and the remaining characters unchanged, truncated to 60 characters; fixed
fallback for an empty or whitespace-only prompt. -/
def claimTitle (p : String) : String :=
  match (pyStrip p).data with
  | [] => "CriM🔥Son Site"
  | c :: cs => ⟨(Char.toUpper c :: cs).take 60⟩

/-- The amended description of the extracted title (what the code computes):
trimmed prompt, first character uppercased, remaining characters lowercased
(Python `str.capitalize`), truncated to 60; fallback when empty. -/
def amendedTitle (p : String) : String :=
  match (pyStrip p).data with
  | [] => "CriM🔥Son Site"
  | c :: cs => ⟨(Char.toUpper c :: cs.map Char.toLower).take 60⟩

/-- The document obtained from `generate_site_html "A bakery landing page" defaultAccent 2025` by one application of the AddPricing insertion (proven below: `pricing_step1`). -/
def bakeryDoc1 : String :=
    "\n" ++
    "<!doctype html>\n" ++
    "<html lang=\"en\">\n" ++
    "  <head>\n" ++
    "    <meta charset=\"UTF-8\" />\n" ++
    "    <meta name=\"viewport\" content=\"width=device-width, initial-scale=1.0\" />\n" ++
    "    <title>" ++
    "A bakery landing page" ++
    "</title>\n" ++
    "    <meta name=\"description\" content=\"" ++
    "Auto-generated website: A bakery landing page" ++
    "\" />\n" ++
    "    <meta name=\"keywords\" content=\"" ++
    "a, bakery, landing, page" ++
    "\" />\n" ++
    "    <link rel=\"preconnect\" href=\"https://fonts.googleapis.com\" />\n" ++
    "    <link rel=\"preconnect\" href=\"https://fonts.gstatic.com\" crossorigin />\n" ++
    "    <link href=\"https://fonts.googleapis.com/css2?family=Inter:wght@300;400;600;800&display=swap\" rel=\"stylesheet\" />\n" ++
    "    <script src=\"https://cdn.tailwindcss.com\"></script>\n" ++
    "    <style>\n" ++
    "      :root \x7b --accent: " ++
    "#DC143C" ++
    "; \x7d\n" ++
    "      html, body \x7b height: 100%; \x7d\n" ++
    "      body \x7b font-family: \x27Inter\x27, system-ui, -apple-system, Segoe UI, Roboto, sans-serif; \x7d\n" ++
    "      .crimson-gradient \x7b background: radial-gradient(1200px 600px at 50% -20%, rgba(220,20,60,0.25), transparent),\n" ++
    "                           radial-gradient(800px 400px at 120% 20%, rgba(99,102,241,0.15), transparent),\n" ++
    "                           #0b0b10; \x7d\n" ++
    "      .glass \x7b backdrop-filter: blur(12px); background: rgba(255,255,255,0.06); border: 1px solid rgba(255,255,255,0.08); \x7d\n" ++
    "      .btn \x7b background: var(--accent); color: white; box-shadow: 0 10px 30px rgba(220,20,60,0.35); \x7d\n" ++
    "      .btn:hover \x7b filter: brightness(1.05); transform: translateY(-1px); \x7d\n" ++
    "    </style>\n" ++
    "  </head>\n" ++
    "  <body class=\"min-h-full crimson-gradient text-white\">\n" ++
    "    <header class=\"sticky top-0 z-50 border-b border-white/10 bg-black/30 backdrop-blur\">\n" ++
    "      <div class=\"max-w-7xl mx-auto px-6 py-4 flex items-center justify-between\">\n" ++
    "        <a href=\"#\" class=\"font-extrabold tracking-tight text-xl\">CriM🔥Son</a>\n" ++
    "        <nav class=\"hidden md:flex gap-8 text-white/80\">\n" ++
    "          <a href=\"#features\" class=\"hover:text-white transition\">Features</a>\n" ++
    "          <a href=\"#templates\" class=\"hover:text-white transition\">Templates</a>\n" ++
    "          <a href=\"#contact\" class=\"hover:text-white transition\">Contact</a>\n" ++
    "        </nav>\n" ++
    "        <a href=\"#cta\" class=\"btn px-4 py-2 rounded-lg font-semibold\">Get Started</a>\n" ++
    "      </div>\n" ++
    "    </header>\n" ++
    "\n" ++
    "    <section class=\"relative\" aria-label=\"Hero\">\n" ++
    "      <div class=\"absolute inset-0 opacity-80\" style=\"pointer-events:none\">\n" ++
    "        <iframe src=\"" ++
    "https://prod.spline.design/4cHQr84zOGAHOehh/scene.splinecode" ++
    "\" title=\"AI Aura\" style=\"width:100%;height:100%;border:0;\"></iframe>\n" ++
    "      </div>\n" ++
    "      <div class=\"relative z-10 max-w-5xl mx-auto px-6 pt-28 pb-24 text-center\">\n" ++
    "        <h1 class=\"text-4xl md:text-6xl font-extrabold leading-tight\">" ++
    "A bakery landing page" ++
    "</h1>\n" ++
    "        <p class=\"mt-6 text-white/80 text-lg md:text-xl\">Production-ready site generated instantly. Clean, accessible, responsive, and fast.</p>\n" ++
    "        <div class=\"mt-10 flex items-center justify-center gap-4\" id=\"cta\">\n" ++
    "          <a href=\"#contact\" class=\"btn px-6 py-3 rounded-xl font-semibold\">Start Now</a>\n" ++
    "          <a href=\"#features\" class=\"px-6 py-3 rounded-xl font-semibold glass\">Explore Features</a>\n" ++
    "        </div>\n" ++
    "      </div>\n" ++
    "    </section>\n" ++
    "\n" ++
    "    <main class=\"relative z-10\">\n" ++
    "      <section id=\"features\" class=\"max-w-6xl mx-auto px-6 py-20 grid md:grid-cols-3 gap-6\">\n" ++
    "        <div class=\"glass rounded-2xl p-6\">\n" ++
    "          <h3 class=\"text-xl font-bold\">Instant Preview</h3>\n" ++
    "          <p class=\"text-white/80 mt-2\">Your site renders as you describe it. No waiting, no compiling.</p>\n" ++
    "        </div>\n" ++
    "        <div class=\"glass rounded-2xl p-6\">\n" ++
    "          <h3 class=\"text-xl font-bold\">Clean Code</h3>\n" ++
    "          <p class=\"text-white/80 mt-2\">Accessible, semantic HTML with responsive layouts out of the box.</p>\n" ++
    "        </div>\n" ++
    "        <div class=\"glass rounded-2xl p-6\">\n" ++
    "          <h3 class=\"text-xl font-bold\">SEO Ready</h3>\n" ++
    "          <p class=\"text-white/80 mt-2\">Meta tags, performance hints, and fast loading by default.</p>\n" ++
    "        </div>\n" ++
    "      </section>\n" ++
    "\n" ++
    "      <section id=\"templates\" class=\"max-w-6xl mx-auto px-6 pb-24\">\n" ++
    "        <h2 class=\"text-2xl font-bold mb-6\">Featured Sections</h2>\n" ++
    "        <div class=\"grid md:grid-cols-3 gap-6\">\n" ++
    "          <article class=\"glass rounded-xl overflow-hidden\">\n" ++
    "            <img src=\"https://picsum.photos/seed/hero/800/500\" alt=\"Placeholder image\" class=\"w-full h-40 object-cover\" />\n" ++
    "            <div class=\"p-5\">\n" ++
    "              <h3 class=\"font-semibold\">Hero + CTA</h3>\n" ++
    "              <p class=\"text-white/80 text-sm mt-1\">Crisp hero section with strong call-to-action.</p>\n" ++
    "            </div>\n" ++
    "          </article>\n" ++
    "          <article class=\"glass rounded-xl overflow-hidden\">\n" ++
    "            <img src=\"https://picsum.photos/seed/feature/800/500\" alt=\"Placeholder image\" class=\"w-full h-40 object-cover\" />\n" ++
    "            <div class=\"p-5\">\n" ++
    "              <h3 class=\"font-semibold\">Feature Grid</h3>\n" ++
    "              <p class=\"text-white/80 text-sm mt-1\">Explain value with icons and concise text.</p>\n" ++
    "            </div>\n" ++
    "          </article>\n" ++
    "          <article class=\"glass rounded-xl overflow-hidden\">\n" ++
    "            <img src=\"https://picsum.photos/seed/contact/800/500\" alt=\"Placeholder image\" class=\"w-full h-40 object-cover\" />\n" ++
    "            <div class=\"p-5\">\n" ++
    "              <h3 class=\"font-semibold\">Contact Form</h3>\n" ++
    "              <p class=\"text-white/80 text-sm mt-1\">Accessible form with client-side validation.</p>\n" ++
    "            </div>\n" ++
    "          </article>\n" ++
    "        </div>\n" ++
    "      </section>\n" ++
    "\n" ++
    "      <section id=\"contact\" class=\"max-w-2xl mx-auto px-6 pb-24\">\n" ++
    "        <div class=\"glass rounded-2xl p-8\">\n" ++
    "          <h2 class=\"text-2xl font-bold\">Get in touch</h2>\n" ++
    "          <form class=\"mt-6 grid gap-4\" onsubmit=\"event.preventDefault(); alert(\x27Submitted!\x27)\">\n" ++
    "            <div>\n" ++
    "              <label class=\"block text-sm text-white/70\">Name</label>\n" ++
    "              <input class=\"w-full mt-1 p-3 rounded-lg bg-white/10 border border-white/10 outline-none focus:border-white/30\" required />\n" ++
    "            </div>\n" ++
    "            <div>\n" ++
    "              <label class=\"block text-sm text-white/70\">Email</label>\n" ++
    "              <input type=\"email\" class=\"w-full mt-1 p-3 rounded-lg bg-white/10 border border-white/10 outline-none focus:border-white/30\" required />\n" ++
    "            </div>\n" ++
    "            <div>\n" ++
    "              <label class=\"block text-sm text-white/70\">Message</label>\n" ++
    "              <textarea rows=\"4\" class=\"w-full mt-1 p-3 rounded-lg bg-white/10 border border-white/10 outline-none focus:border-white/30\" required></textarea>\n" ++
    "            </div>\n" ++
    "            <button class=\"btn px-5 py-3 rounded-xl font-semibold\">Send</button>\n" ++
    "          </form>\n" ++
    "        </div>\n" ++
    "      </section>\n" ++
    "    " ++
    "\n" ++
    "<section id=\"pricing\"" ++
    " class=\"max-w-6xl mx-auto px-6 pb-24\">\n" ++
    "  <h2 class=\"text-2xl font-bold mb-6\">Pricing</h2>\n" ++
    "  <div class=\"grid md:grid-cols-3 gap-6\">\n" ++
    "    <div class=\"glass rounded-2xl p-6\"><h3 class=\"font-semibold\">Starter</h3><p class=\"text-4xl font-extrabold mt-2\">$0</p><p class=\"text-white/70 mt-2\">For experiments</p></div>\n" ++
    "    <div class=\"glass rounded-2xl p-6 border border-white/20\"><h3 class=\"font-semibold\">Pro</h3><p class=\"text-4xl font-extrabold mt-2\">$19</p><p class=\"text-white/70 mt-2\">For builders</p></div>\n" ++
    "    <div class=\"glass rounded-2xl p-6\"><h3 class=\"font-semibold\">Scale</h3><p class=\"text-4xl font-extrabold mt-2\">$99</p><p class=\"text-white/70 mt-2\">For teams</p></div>\n" ++
    "  </div>\n" ++
    "</section>\n" ++
    "\n    " ++
    "</main>" ++
    "\n" ++
    "\n" ++
    "    <footer class=\"border-t border-white/10 py-10 text-center text-white/60\">\n" ++
    "      <p>© " ++
    "2025" ++
    " CriM🔥Son — Generated by natural language</p>\n" ++
    "    </footer>\n" ++
    "  </body>\n" ++
    "</html>\n"

/-- The document obtained from `bakeryDoc1` by a second application of the AddPricing insertion (proven below: `pricing_step2`). -/
def bakeryDoc2 : String :=
    "\n" ++
    "<!doctype html>\n" ++
    "<html lang=\"en\">\n" ++
    "  <head>\n" ++
    "    <meta charset=\"UTF-8\" />\n" ++
    "    <meta name=\"viewport\" content=\"width=device-width, initial-scale=1.0\" />\n" ++
    "    <title>" ++
    "A bakery landing page" ++
    "</title>\n" ++
    "    <meta name=\"description\" content=\"" ++
    "Auto-generated website: A bakery landing page" ++
    "\" />\n" ++
    "    <meta name=\"keywords\" content=\"" ++
    "a, bakery, landing, page" ++
    "\" />\n" ++
    "    <link rel=\"preconnect\" href=\"https://fonts.googleapis.com\" />\n" ++
    "    <link rel=\"preconnect\" href=\"https://fonts.gstatic.com\" crossorigin />\n" ++
    "    <link href=\"https://fonts.googleapis.com/css2?family=Inter:wght@300;400;600;800&display=swap\" rel=\"stylesheet\" />\n" ++
    "    <script src=\"https://cdn.tailwindcss.com\"></script>\n" ++
    "    <style>\n" ++
    "      :root \x7b --accent: " ++
    "#DC143C" ++
    "; \x7d\n" ++
    "      html, body \x7b height: 100%; \x7d\n" ++
    "      body \x7b font-family: \x27Inter\x27, system-ui, -apple-system, Segoe UI, Roboto, sans-serif; \x7d\n" ++
    "      .crimson-gradient \x7b background: radial-gradient(1200px 600px at 50% -20%, rgba(220,20,60,0.25), transparent),\n" ++
    "                           radial-gradient(800px 400px at 120% 20%, rgba(99,102,241,0.15), transparent),\n" ++
    "                           #0b0b10; \x7d\n" ++
    "      .glass \x7b backdrop-filter: blur(12px); background: rgba(255,255,255,0.06); border: 1px solid rgba(255,255,255,0.08); \x7d\n" ++
    "      .btn \x7b background: var(--accent); color: white; box-shadow: 0 10px 30px rgba(220,20,60,0.35); \x7d\n" ++
    "      .btn:hover \x7b filter: brightness(1.05); transform: translateY(-1px); \x7d\n" ++
    "    </style>\n" ++
    "  </head>\n" ++
    "  <body class=\"min-h-full crimson-gradient text-white\">\n" ++
    "    <header class=\"sticky top-0 z-50 border-b border-white/10 bg-black/30 backdrop-blur\">\n" ++
    "      <div class=\"max-w-7xl mx-auto px-6 py-4 flex items-center justify-between\">\n" ++
    "        <a href=\"#\" class=\"font-extrabold tracking-tight text-xl\">CriM🔥Son</a>\n" ++
    "        <nav class=\"hidden md:flex gap-8 text-white/80\">\n" ++
    "          <a href=\"#features\" class=\"hover:text-white transition\">Features</a>\n" ++
    "          <a href=\"#templates\" class=\"hover:text-white transition\">Templates</a>\n" ++
    "          <a href=\"#contact\" class=\"hover:text-white transition\">Contact</a>\n" ++
    "        </nav>\n" ++
    "        <a href=\"#cta\" class=\"btn px-4 py-2 rounded-lg font-semibold\">Get Started</a>\n" ++
    "      </div>\n" ++
    "    </header>\n" ++
    "\n" ++
    "    <section class=\"relative\" aria-label=\"Hero\">\n" ++
    "      <div class=\"absolute inset-0 opacity-80\" style=\"pointer-events:none\">\n" ++
    "        <iframe src=\"" ++
    "https://prod.spline.design/4cHQr84zOGAHOehh/scene.splinecode" ++
    "\" title=\"AI Aura\" style=\"width:100%;height:100%;border:0;\"></iframe>\n" ++
    "      </div>\n" ++
    "      <div class=\"relative z-10 max-w-5xl mx-auto px-6 pt-28 pb-24 text-center\">\n" ++
    "        <h1 class=\"text-4xl md:text-6xl font-extrabold leading-tight\">" ++
    "A bakery landing page" ++
    "</h1>\n" ++
    "        <p class=\"mt-6 text-white/80 text-lg md:text-xl\">Production-ready site generated instantly. Clean, accessible, responsive, and fast.</p>\n" ++
    "        <div class=\"mt-10 flex items-center justify-center gap-4\" id=\"cta\">\n" ++
    "          <a href=\"#contact\" class=\"btn px-6 py-3 rounded-xl font-semibold\">Start Now</a>\n" ++
    "          <a href=\"#features\" class=\"px-6 py-3 rounded-xl font-semibold glass\">Explore Features</a>\n" ++
    "        </div>\n" ++
    "      </div>\n" ++
    "    </section>\n" ++
    "\n" ++
    "    <main class=\"relative z-10\">\n" ++
    "      <section id=\"features\" class=\"max-w-6xl mx-auto px-6 py-20 grid md:grid-cols-3 gap-6\">\n" ++
    "        <div class=\"glass rounded-2xl p-6\">\n" ++
    "          <h3 class=\"text-xl font-bold\">Instant Preview</h3>\n" ++
    "          <p class=\"text-white/80 mt-2\">Your site renders as you describe it. No waiting, no compiling.</p>\n" ++
    "        </div>\n" ++
    "        <div class=\"glass rounded-2xl p-6\">\n" ++
    "          <h3 class=\"text-xl font-bold\">Clean Code</h3>\n" ++
    "          <p class=\"text-white/80 mt-2\">Accessible, semantic HTML with responsive layouts out of the box.</p>\n" ++
    "        </div>\n" ++
    "        <div class=\"glass rounded-2xl p-6\">\n" ++
    "          <h3 class=\"text-xl font-bold\">SEO Ready</h3>\n" ++
    "          <p class=\"text-white/80 mt-2\">Meta tags, performance hints, and fast loading by default.</p>\n" ++
    "        </div>\n" ++
    "      </section>\n" ++
    "\n" ++
    "      <section id=\"templates\" class=\"max-w-6xl mx-auto px-6 pb-24\">\n" ++
    "        <h2 class=\"text-2xl font-bold mb-6\">Featured Sections</h2>\n" ++
    "        <div class=\"grid md:grid-cols-3 gap-6\">\n" ++
    "          <article class=\"glass rounded-xl overflow-hidden\">\n" ++
    "            <img src=\"https://picsum.photos/seed/hero/800/500\" alt=\"Placeholder image\" class=\"w-full h-40 object-cover\" />\n" ++
    "            <div class=\"p-5\">\n" ++
    "              <h3 class=\"font-semibold\">Hero + CTA</h3>\n" ++
    "              <p class=\"text-white/80 text-sm mt-1\">Crisp hero section with strong call-to-action.</p>\n" ++
    "            </div>\n" ++
    "          </article>\n" ++
    "          <article class=\"glass rounded-xl overflow-hidden\">\n" ++
    "            <img src=\"https://picsum.photos/seed/feature/800/500\" alt=\"Placeholder image\" class=\"w-full h-40 object-cover\" />\n" ++
    "            <div class=\"p-5\">\n" ++
    "              <h3 class=\"font-semibold\">Feature Grid</h3>\n" ++
    "              <p class=\"text-white/80 text-sm mt-1\">Explain value with icons and concise text.</p>\n" ++
    "            </div>\n" ++
    "          </article>\n" ++
    "          <article class=\"glass rounded-xl overflow-hidden\">\n" ++
    "            <img src=\"https://picsum.photos/seed/contact/800/500\" alt=\"Placeholder image\" class=\"w-full h-40 object-cover\" />\n" ++
    "            <div class=\"p-5\">\n" ++
    "              <h3 class=\"font-semibold\">Contact Form</h3>\n" ++
    "              <p class=\"text-white/80 text-sm mt-1\">Accessible form with client-side validation.</p>\n" ++
    "            </div>\n" ++
    "          </article>\n" ++
    "        </div>\n" ++
    "      </section>\n" ++
    "\n" ++
    "      <section id=\"contact\" class=\"max-w-2xl mx-auto px-6 pb-24\">\n" ++
    "        <div class=\"glass rounded-2xl p-8\">\n" ++
    "          <h2 class=\"text-2xl font-bold\">Get in touch</h2>\n" ++
    "          <form class=\"mt-6 grid gap-4\" onsubmit=\"event.preventDefault(); alert(\x27Submitted!\x27)\">\n" ++
    "            <div>\n" ++
    "              <label class=\"block text-sm text-white/70\">Name</label>\n" ++
    "              <input class=\"w-full mt-1 p-3 rounded-lg bg-white/10 border border-white/10 outline-none focus:border-white/30\" required />\n" ++
    "            </div>\n" ++
    "            <div>\n" ++
    "              <label class=\"block text-sm text-white/70\">Email</label>\n" ++
    "              <input type=\"email\" class=\"w-full mt-1 p-3 rounded-lg bg-white/10 border border-white/10 outline-none focus:border-white/30\" required />\n" ++
    "            </div>\n" ++
    "            <div>\n" ++
    "              <label class=\"block text-sm text-white/70\">Message</label>\n" ++
    "              <textarea rows=\"4\" class=\"w-full mt-1 p-3 rounded-lg bg-white/10 border border-white/10 outline-none focus:border-white/30\" required></textarea>\n" ++
    "            </div>\n" ++
    "            <button class=\"btn px-5 py-3 rounded-xl font-semibold\">Send</button>\n" ++
    "          </form>\n" ++
    "        </div>\n" ++
    "      </section>\n" ++
    "    " ++
    "\n" ++
    "<section id=\"pricing\"" ++
    " class=\"max-w-6xl mx-auto px-6 pb-24\">\n" ++
    "  <h2 class=\"text-2xl font-bold mb-6\">Pricing</h2>\n" ++
    "  <div class=\"grid md:grid-cols-3 gap-6\">\n" ++
    "    <div class=\"glass rounded-2xl p-6\"><h3 class=\"font-semibold\">Starter</h3><p class=\"text-4xl font-extrabold mt-2\">$0</p><p class=\"text-white/70 mt-2\">For experiments</p></div>\n" ++
    "    <div class=\"glass rounded-2xl p-6 border border-white/20\"><h3 class=\"font-semibold\">Pro</h3><p class=\"text-4xl font-extrabold mt-2\">$19</p><p class=\"text-white/70 mt-2\">For builders</p></div>\n" ++
    "    <div class=\"glass rounded-2xl p-6\"><h3 class=\"font-semibold\">Scale</h3><p class=\"text-4xl font-extrabold mt-2\">$99</p><p class=\"text-white/70 mt-2\">For teams</p></div>\n" ++
    "  </div>\n" ++
    "</section>\n" ++
    "\n    " ++
    "\n" ++
    "<section id=\"pricing\"" ++
    " class=\"max-w-6xl mx-auto px-6 pb-24\">\n" ++
    "  <h2 class=\"text-2xl font-bold mb-6\">Pricing</h2>\n" ++
    "  <div class=\"grid md:grid-cols-3 gap-6\">\n" ++
    "    <div class=\"glass rounded-2xl p-6\"><h3 class=\"font-semibold\">Starter</h3><p class=\"text-4xl font-extrabold mt-2\">$0</p><p class=\"text-white/70 mt-2\">For experiments</p></div>\n" ++
    "    <div class=\"glass rounded-2xl p-6 border border-white/20\"><h3 class=\"font-semibold\">Pro</h3><p class=\"text-4xl font-extrabold mt-2\">$19</p><p class=\"text-white/70 mt-2\">For builders</p></div>\n" ++
    "    <div class=\"glass rounded-2xl p-6\"><h3 class=\"font-semibold\">Scale</h3><p class=\"text-4xl font-extrabold mt-2\">$99</p><p class=\"text-white/70 mt-2\">For teams</p></div>\n" ++
    "  </div>\n" ++
    "</section>\n" ++
    "\n    " ++
    "</main>" ++
    "\n" ++
    "\n" ++
    "    <footer class=\"border-t border-white/10 py-10 text-center text-white/60\">\n" ++
    "      <p>© " ++
    "2025" ++
    " CriM🔥Son — Generated by natural language</p>\n" ++
    "    </footer>\n" ++
    "  </body>\n" ++
    "</html>\n"

/-- A minimal stored project as created for prompt `"p"` with document
`"h"` (fixture for concrete evaluations). -/
def sampleProject : Project :=
  { user_id := "guest", name := "n", prompt := "p", html := "h",
    versions := [{ html := "h", note := "Initial generation" }],
    history := [{ role := "user", content := "p" },
                { role := "assistant", content := "Generated initial site" }],
    status := "draft" }

/-- A project value violating the data-model invariant `versions ≠ []`
(fixture for the validation claims). -/
def emptyVersionsProject : Project :=
  { user_id := "guest", name := "n", prompt := "p", html := "h",
    versions := [], history := [], status := "draft" }

/-! ## Infrastructure lemmas about the embedded string scanners -/

theorem hasPrefixL_iff : ∀ pat s : List Char, hasPrefixL pat s = true ↔ pat <+: s
  | [], s => by simp [hasPrefixL]
  | p :: ps, [] => by simp [hasPrefixL]
  | p :: ps, c :: cs => by
      rw [List.cons_prefix_cons]
      simp [hasPrefixL, hasPrefixL_iff ps cs]

theorem hasInfixL_iff (pat : List Char) : ∀ s : List Char,
    hasInfixL pat s = true ↔ pat <:+: s
  | [] => by
      simp [hasInfixL, hasPrefixL_iff]
  | c :: cs => by
      simp [hasInfixL, hasPrefixL_iff, hasInfixL_iff pat cs, List.infix_cons_iff]

theorem replFuel_congr (pat rep : List Char) :
    ∀ n s m, List.length s ≤ n → List.length s ≤ m →
      replFuel pat rep n s = replFuel pat rep m s := by
  intro n
  induction n with
  | zero =>
    intro s m hn _
    have : s = [] := List.eq_nil_of_length_eq_zero (Nat.le_zero.mp hn)
    subst this
    cases m <;> rfl
  | succ n ih =>
    intro s m hn hm
    cases s with
    | nil => cases m <;> rfl
    | cons c cs =>
      cases m with
      | zero => simp at hm
      | succ m' =>
      simp only [replFuel]
      split
      · have hd := List.length_drop (pat.length - 1) cs
        simp only [List.length_cons] at hn hm
        rw [ih (cs.drop (pat.length - 1)) m' (by omega) (by omega)]
      · simp only [List.length_cons] at hn hm
        rw [ih cs m' (by omega) (by omega)]

theorem replFuel_eq (pat rep : List Char) {n : Nat} {s : List Char}
    (h : List.length s ≤ n) : replFuel pat rep n s = pyReplaceL pat rep s :=
  replFuel_congr pat rep n s s.length h (Nat.le_refl _)

theorem countFuel_congr (pat : List Char) :
    ∀ n s m, List.length s ≤ n → List.length s ≤ m →
      countFuel pat n s = countFuel pat m s := by
  intro n
  induction n with
  | zero =>
    intro s m hn _
    have : s = [] := List.eq_nil_of_length_eq_zero (Nat.le_zero.mp hn)
    subst this
    cases m <;> rfl
  | succ n ih =>
    intro s m hn hm
    cases s with
    | nil => cases m <;> rfl
    | cons c cs =>
      cases m with
      | zero => simp at hm
      | succ m' =>
      simp only [countFuel]
      split
      · have hd := List.length_drop (pat.length - 1) cs
        simp only [List.length_cons] at hn hm
        rw [ih (cs.drop (pat.length - 1)) m' (by omega) (by omega)]
      · simp only [List.length_cons] at hn hm
        rw [ih cs m' (by omega) (by omega)]

theorem countFuel_eq (pat : List Char) {n : Nat} {s : List Char}
    (h : List.length s ≤ n) : countFuel pat n s = countL pat s :=
  countFuel_congr pat n s s.length h (Nat.le_refl _)

theorem hasPrefixL_append_self (p x : List Char) : hasPrefixL p (p ++ x) = true := by
  rw [hasPrefixL_iff]
  exact ⟨x, rfl⟩

theorem pyReplaceL_nil (pat rep : List Char) : pyReplaceL pat rep [] = [] := rfl

theorem countL_nil (pat : List Char) : countL pat [] = 0 := rfl

theorem replSkip (pat rep : List Char) :
    ∀ a rest, noMatchUpto pat a.length (a ++ rest) = true →
      pyReplaceL pat rep (a ++ rest) = a ++ pyReplaceL pat rep rest := by
  intro a
  induction a with
  | nil => intro rest h; simp
  | cons c cs ih =>
    intro rest h
    simp only [List.cons_append, List.length_cons, noMatchUpto, Bool.and_eq_true,
      Bool.not_eq_true', List.append_eq] at h
    obtain ⟨h1, h2⟩ := h
    show replFuel pat rep (List.length (c :: (cs ++ rest))) (c :: (cs ++ rest)) = _
    simp only [List.length_cons, replFuel]
    have hb : (!pat.isEmpty && hasPrefixL pat (c :: (cs ++ rest))) = false := by
      rw [h1, Bool.and_false]
    rw [if_neg (by simp [hb])]
    rw [replFuel_eq pat rep (Nat.le_refl _), ih rest h2]
    simp

theorem replConsume (pat rep : List Char) (hp : pat ≠ []) (rest : List Char) :
    pyReplaceL pat rep (pat ++ rest) = rep ++ pyReplaceL pat rep rest := by
  obtain ⟨p, ps, rfl⟩ : ∃ p ps, pat = p :: ps := by
    cases pat with
    | nil => exact absurd rfl hp
    | cons p ps => exact ⟨p, ps, rfl⟩
  show replFuel _ _ (List.length ((p :: ps) ++ rest)) _ = _
  simp only [List.cons_append, List.length_append, List.length_cons, replFuel,
    List.append_eq]
  have hb : (!(p :: ps).isEmpty && hasPrefixL (p :: ps) (p :: (ps ++ rest))) = true := by
    have hps := hasPrefixL_append_self (p :: ps) rest
    simp only [List.cons_append] at hps
    simp [hps]
  rw [if_pos hb]
  congr 1
  simp only [Nat.add_sub_cancel, List.append_eq, List.drop_left]
  exact replFuel_eq _ _ (by omega)

theorem replAll (pat rep a : List Char) (h : noMatchUpto pat a.length a = true) :
    pyReplaceL pat rep a = a := by
  have h2 : noMatchUpto pat a.length (a ++ []) = true := by simpa using h
  have h3 := replSkip pat rep a [] h2
  simpa [pyReplaceL_nil] using h3

theorem countSkip (pat : List Char) :
    ∀ a rest, noMatchUpto pat a.length (a ++ rest) = true →
      countL pat (a ++ rest) = countL pat rest := by
  intro a
  induction a with
  | nil => intro rest h; simp
  | cons c cs ih =>
    intro rest h
    simp only [List.cons_append, List.length_cons, noMatchUpto, Bool.and_eq_true,
      Bool.not_eq_true', List.append_eq] at h
    obtain ⟨h1, h2⟩ := h
    show countFuel pat (List.length (c :: (cs ++ rest))) (c :: (cs ++ rest)) = _
    simp only [List.length_cons, countFuel]
    have hb : (!pat.isEmpty && hasPrefixL pat (c :: (cs ++ rest))) = false := by
      rw [h1, Bool.and_false]
    rw [if_neg (by simp [hb])]
    rw [countFuel_eq pat (Nat.le_refl _), ih rest h2]

theorem countConsume (pat : List Char) (hp : pat ≠ []) (rest : List Char) :
    countL pat (pat ++ rest) = 1 + countL pat rest := by
  obtain ⟨p, ps, rfl⟩ : ∃ p ps, pat = p :: ps := by
    cases pat with
    | nil => exact absurd rfl hp
    | cons p ps => exact ⟨p, ps, rfl⟩
  show countFuel _ (List.length ((p :: ps) ++ rest)) _ = _
  simp only [List.cons_append, List.length_append, List.length_cons, countFuel,
    List.append_eq]
  have hb : (!(p :: ps).isEmpty && hasPrefixL (p :: ps) (p :: (ps ++ rest))) = true := by
    have hps := hasPrefixL_append_self (p :: ps) rest
    simp only [List.cons_append] at hps
    simp [hps]
  rw [if_pos hb]
  congr 1
  simp only [Nat.add_sub_cancel, List.append_eq, List.drop_left]
  exact countFuel_eq _ (by omega)

theorem countAll (pat a : List Char) (h : noMatchUpto pat a.length a = true) :
    countL pat a = 0 := by
  have h2 : noMatchUpto pat a.length (a ++ []) = true := by simpa using h
  have h3 := countSkip pat a [] h2
  simpa [countL_nil] using h3

theorem data_mk (L : List Char) : (String.mk L).data = L := rfl

theorem pyReplace_def (s pat rep : String) :
    pyReplace s pat rep = ⟨pyReplaceL pat.data rep.data s.data⟩ := rfl

theorem countOccur_def (s pat : String) : countOccur s pat = countL pat.data s.data := rfl

theorem split_main_line :
    ([' ', ' ', ' ', ' ', '<', '/', 'm', 'a', 'i', 'n', '>', '\n'] : List Char) =
      [' ', ' ', ' ', ' '] ++ (['<', '/', 'm', 'a', 'i', 'n', '>'] ++ ['\n']) := by decide

theorem split_tail_ins :
    (['\n', ' ', ' ', ' ', ' ', '<', '/', 'm', 'a', 'i', 'n', '>'] : List Char) =
      ['\n', ' ', ' ', ' ', ' '] ++ ['<', '/', 'm', 'a', 'i', 'n', '>'] := by decide

theorem split_pricing_line :
    (['<', 's', 'e', 'c', 't', 'i', 'o', 'n', ' ', 'i', 'd', '=', '"', 'p', 'r', 'i', 'c', 'i', 'n', 'g', '"', ' ', 'c', 'l', 'a', 's', 's', '=', '"', 'm', 'a', 'x', '-', 'w', '-', '6', 'x', 'l', ' ', 'm', 'x', '-', 'a', 'u', 't', 'o', ' ', 'p', 'x', '-', '6', ' ', 'p', 'b', '-', '2', '4', '"', '>', '\n'] : List Char) =
      ['<', 's', 'e', 'c', 't', 'i', 'o', 'n', ' ', 'i', 'd', '=', '"', 'p', 'r', 'i', 'c', 'i', 'n', 'g', '"'] ++ ([' ', 'c', 'l', 'a', 's', 's', '=', '"', 'm', 'a', 'x', '-', 'w', '-', '6', 'x', 'l', ' ', 'm', 'x', '-', 'a', 'u', 't', 'o', ' ', 'p', 'x', '-', '6', ' ', 'p', 'b', '-', '2', '4', '"', '>', '\n'] : List Char) := by decide

theorem applyChatEdit_scifi {prompt html message : String} {year : Nat}
    (h : classify message = .SciFiTheme) :
    applyChatEdit prompt html message year =
      (pyReplace (pyReplace (pyReplace html "#0b0b10" "#05060a")
          "rgba(99,102,241,0.15)" "rgba(56,189,248,0.18)") "Production-ready" sciFiPhrase,
       "Applied sci-fi theme") := by
  unfold applyChatEdit
  rw [h]

theorem applyChatEdit_dark {prompt html message : String} {year : Nat}
    (h : classify message = .DarkMode) :
    applyChatEdit prompt html message year =
      (pyReplace html "#0b0b10" "#0a0a0a", "Darkened base colors") := by
  unfold applyChatEdit
  rw [h]

theorem applyChatEdit_pricing {prompt html message : String} {year : Nat}
    (h : classify message = .AddPricing) :
    applyChatEdit prompt html message year =
      (pyReplace html "</main>" (pricingInsertion ++ "\n    </main>"),
       "Added pricing section") := by
  unfold applyChatEdit
  rw [h]

theorem applyChatEdit_accent {prompt html message : String} {year : Nat}
    (h : classify message = .AccentRecolor) :
    applyChatEdit prompt html message year =
      (pyReplace html "--accent: #DC143C" "--accent: #b80f2a", "Adjusted accent color") := by
  unfold applyChatEdit
  rw [h]

theorem applyChatEdit_regen {prompt html message : String} {year : Nat}
    (h : classify message = .Regenerate) :
    applyChatEdit prompt html message year =
      (generate_site_html (prompt ++ " — " ++ message) defaultAccent year,
       "Regenerated site with new instruction") := by
  unfold applyChatEdit
  rw [h]

set_option maxRecDepth 4000 in
theorem seo_bakery : seo_from_prompt "A bakery landing page" =
    { title := "A bakery landing page",
      description := "Auto-generated website: A bakery landing page",
      keywords := "a, bakery, landing, page" } := by decide

theorem year_2025 : toString (2025 : Nat) = "2025" := by decide


set_option maxRecDepth 4000 in
set_option maxHeartbeats 10000000 in
theorem pricing_step1 :
    applyChatEdit "A bakery landing page"
        (generate_site_html "A bakery landing page" defaultAccent 2025) "add pricing" 2025 =
      (bakeryDoc1, "Added pricing section") := by
  have hc : classify "add pricing" = TransformationKind.AddPricing := by decide
  rw [Prod.ext_iff, String.ext_iff]
  refine ⟨?_, rfl⟩
  simp only [applyChatEdit_pricing hc, pyReplace_def, data_mk, Prod.mk.injEq,
      generate_site_html, seo_bakery, year_2025, defaultAccent, splineUrl,
      htmlChunk0, htmlChunk1, htmlChunk2, htmlChunk3, htmlChunk4, htmlChunk5, htmlChunk6,
      htmlChunk7, pricingInsertion, bakeryDoc1, bakeryDoc2, split_main_line, split_tail_ins,
      split_pricing_line, String.data_append, List.append_assoc]
  repeat first
    | rw [replConsume]
    | rw [replSkip]
  repeat rw [replAll]
  try simp only [List.append_assoc]
  all_goals decide

set_option maxRecDepth 4000 in
set_option maxHeartbeats 10000000 in
theorem pricing_step2 :
    applyChatEdit "A bakery landing page" bakeryDoc1 "add pricing" 2025 =
      (bakeryDoc2, "Added pricing section") := by
  have hc : classify "add pricing" = TransformationKind.AddPricing := by decide
  rw [Prod.ext_iff, String.ext_iff]
  refine ⟨?_, rfl⟩
  simp only [applyChatEdit_pricing hc, pyReplace_def, data_mk, Prod.mk.injEq,
      generate_site_html, seo_bakery, year_2025, defaultAccent, splineUrl,
      htmlChunk0, htmlChunk1, htmlChunk2, htmlChunk3, htmlChunk4, htmlChunk5, htmlChunk6,
      htmlChunk7, pricingInsertion, bakeryDoc1, bakeryDoc2, split_main_line, split_tail_ins,
      split_pricing_line, String.data_append, List.append_assoc]
  repeat first
    | rw [replConsume]
    | rw [replSkip]
  repeat rw [replAll]
  try simp only [List.append_assoc]
  all_goals decide

set_option maxRecDepth 4000 in
set_option maxHeartbeats 10000000 in
theorem pricing_double_replace :
    pyReplace (generate_site_html "A bakery landing page" defaultAccent 2025) "</main>"
        (pricingInsertion ++ "\n    " ++ pricingInsertion ++ "\n    </main>") =
      bakeryDoc2 := by
  have hc : classify "add pricing" = TransformationKind.AddPricing := by decide
  rw [String.ext_iff]
  simp only [applyChatEdit_pricing hc, pyReplace_def, data_mk, Prod.mk.injEq,
      generate_site_html, seo_bakery, year_2025, defaultAccent, splineUrl,
      htmlChunk0, htmlChunk1, htmlChunk2, htmlChunk3, htmlChunk4, htmlChunk5, htmlChunk6,
      htmlChunk7, pricingInsertion, bakeryDoc1, bakeryDoc2, split_main_line, split_tail_ins,
      split_pricing_line, String.data_append, List.append_assoc]
  repeat first
    | rw [replConsume]
    | rw [replSkip]
  repeat rw [replAll]
  try simp only [List.append_assoc]
  all_goals decide

set_option maxRecDepth 4000 in
set_option maxHeartbeats 10000000 in
theorem pricing_count_d0 :
    countOccur (generate_site_html "A bakery landing page" defaultAccent 2025) "<section id=\"pricing\"" = 0 := by
  simp only [countOccur_def, pyReplace_def, data_mk, Prod.mk.injEq,
      generate_site_html, seo_bakery, year_2025, defaultAccent, splineUrl,
      htmlChunk0, htmlChunk1, htmlChunk2, htmlChunk3, htmlChunk4, htmlChunk5, htmlChunk6,
      htmlChunk7, pricingInsertion, bakeryDoc1, bakeryDoc2, split_main_line, split_tail_ins,
      split_pricing_line, String.data_append, List.append_assoc]
  repeat first
    | rw [countConsume]
    | rw [countSkip]
  repeat rw [countAll]
  all_goals decide

set_option maxRecDepth 4000 in
set_option maxHeartbeats 10000000 in
theorem pricing_count_d1 :
    countOccur bakeryDoc1 "<section id=\"pricing\"" = 1 := by
  simp only [countOccur_def, pyReplace_def, data_mk, Prod.mk.injEq,
      generate_site_html, seo_bakery, year_2025, defaultAccent, splineUrl,
      htmlChunk0, htmlChunk1, htmlChunk2, htmlChunk3, htmlChunk4, htmlChunk5, htmlChunk6,
      htmlChunk7, pricingInsertion, bakeryDoc1, bakeryDoc2, split_main_line, split_tail_ins,
      split_pricing_line, String.data_append, List.append_assoc]
  repeat first
    | rw [countConsume]
    | rw [countSkip]
  repeat rw [countAll]
  all_goals decide

set_option maxRecDepth 4000 in
set_option maxHeartbeats 10000000 in
theorem pricing_count_d2 :
    countOccur bakeryDoc2 "<section id=\"pricing\"" = 2 := by
  simp only [countOccur_def, pyReplace_def, data_mk, Prod.mk.injEq,
      generate_site_html, seo_bakery, year_2025, defaultAccent, splineUrl,
      htmlChunk0, htmlChunk1, htmlChunk2, htmlChunk3, htmlChunk4, htmlChunk5, htmlChunk6,
      htmlChunk7, pricingInsertion, bakeryDoc1, bakeryDoc2, split_main_line, split_tail_ins,
      split_pricing_line, String.data_append, List.append_assoc]
  repeat first
    | rw [countConsume]
    | rw [countSkip]
  repeat rw [countAll]
  all_goals decide

set_option maxRecDepth 4000 in
set_option maxHeartbeats 10000000 in
theorem main_count_d2 :
    countOccur bakeryDoc2 "</main>" = 1 := by
  simp only [countOccur_def, pyReplace_def, data_mk, Prod.mk.injEq,
      generate_site_html, seo_bakery, year_2025, defaultAccent, splineUrl,
      htmlChunk0, htmlChunk1, htmlChunk2, htmlChunk3, htmlChunk4, htmlChunk5, htmlChunk6,
      htmlChunk7, pricingInsertion, bakeryDoc1, bakeryDoc2, split_main_line, split_tail_ins,
      split_pricing_line, String.data_append, List.append_assoc]
  repeat first
    | rw [countConsume]
    | rw [countSkip]
  repeat rw [countAll]
  all_goals decide


/-- Claim C5: applying the AddPricing transformation twice in sequence to a
freshly synthesized document yields a document containing two copies of the
pricing section, each inserted immediately before the `</main>` boundary; the
transformation is not idempotent and does not deduplicate.  Formally, for the
document synthesized from the prompt `"A bakery landing page"` (in year 2025):
the fresh document has no pricing section, one application has exactly one,
two applications have exactly two; the twice-edited document still has exactly
one `</main>`; it equals the single replacement of `</main>` by two copies of
the insertion followed by `</main>` (so both copies sit immediately before the
unique main-closing boundary); and the second application changes the
document (no idempotence). -/
theorem addPricing_twice_inserts_two_copies :
    countOccur (generate_site_html "A bakery landing page" defaultAccent 2025) "<section id=\"pricing\"" = 0 ∧
    (applyChatEdit "A bakery landing page" (generate_site_html "A bakery landing page" defaultAccent 2025) "add pricing" 2025).2 = "Added pricing section" ∧
    countOccur (applyChatEdit "A bakery landing page" (generate_site_html "A bakery landing page" defaultAccent 2025) "add pricing" 2025).1 "<section id=\"pricing\"" = 1 ∧
    countOccur (applyChatEdit "A bakery landing page" (applyChatEdit "A bakery landing page" (generate_site_html "A bakery landing page" defaultAccent 2025) "add pricing" 2025).1 "add pricing" 2025).1 "<section id=\"pricing\"" = 2 ∧
    countOccur (applyChatEdit "A bakery landing page" (applyChatEdit "A bakery landing page" (generate_site_html "A bakery landing page" defaultAccent 2025) "add pricing" 2025).1 "add pricing" 2025).1 "</main>" = 1 ∧
    (applyChatEdit "A bakery landing page" (applyChatEdit "A bakery landing page" (generate_site_html "A bakery landing page" defaultAccent 2025) "add pricing" 2025).1 "add pricing" 2025).1 = pyReplace (generate_site_html "A bakery landing page" defaultAccent 2025) "</main>"
      (pricingInsertion ++ "\n    " ++ pricingInsertion ++ "\n    </main>") ∧
    (applyChatEdit "A bakery landing page" (generate_site_html "A bakery landing page" defaultAccent 2025) "add pricing" 2025).1 ≠ (applyChatEdit "A bakery landing page" (applyChatEdit "A bakery landing page" (generate_site_html "A bakery landing page" defaultAccent 2025) "add pricing" 2025).1 "add pricing" 2025).1 := by
  refine ⟨pricing_count_d0, ?_, ?_, ?_, ?_, ?_, ?_⟩
  · rw [pricing_step1]
  · simp only [pricing_step1]
    exact pricing_count_d1
  · simp only [pricing_step1, pricing_step2]
    exact pricing_count_d2
  · simp only [pricing_step1, pricing_step2]
    exact main_count_d2
  · simp only [pricing_step1, pricing_step2]
    exact pricing_double_replace.symm
  · simp only [pricing_step1, pricing_step2]
    intro h
    have h1 := pricing_count_d1
    rw [h, pricing_count_d2] at h1
    exact absurd h1 (by decide)

theorem char_toNat_ofNat {n : Nat} (h : n < 55296) : (Char.ofNat n).toNat = n := by
  have hv : n.isValidChar := Or.inl h
  unfold Char.ofNat
  rw [dif_pos hv]
  rfl

theorem uint32_le_iff (a b : UInt32) : a ≤ b ↔ a.toNat ≤ b.toNat := Iff.rfl

theorem toLower_toLower (c : Char) : c.toLower.toLower = c.toLower := by
  simp only [Char.toLower]
  by_cases h : c.toNat ≥ 65 ∧ c.toNat ≤ 90
  · rw [if_pos h]
    have hn : (Char.ofNat (c.toNat + 32)).toNat = c.toNat + 32 := char_toNat_ofNat (by omega)
    rw [hn, if_neg (by omega)]
  · rw [if_neg h, if_neg h]

theorem isUpper_eq (c : Char) : c.isUpper = (decide (65 ≤ c.toNat) && decide (c.toNat ≤ 90)) := by
  unfold Char.isUpper
  rfl

theorem isLower_eq (c : Char) : c.isLower = (decide (97 ≤ c.toNat) && decide (c.toNat ≤ 122)) := by
  unfold Char.isLower
  rfl

theorem isUpper_toLower (x : Char) : (Char.toLower x).isUpper = false := by
  simp only [Char.toLower]
  by_cases h : x.toNat ≥ 65 ∧ x.toNat ≤ 90
  · rw [if_pos h, isUpper_eq, char_toNat_ofNat (by omega)]
    simp
    omega
  · rw [if_neg h, isUpper_eq]
    simp
    omega

theorem isLower_of_isAlpha_toLower (x : Char) (h : (Char.toLower x).isAlpha = true) :
    (Char.toLower x).isLower = true := by
  have hu := isUpper_toLower x
  unfold Char.isAlpha at h
  rw [hu] at h
  simpa using h

theorem lowerStr_idem (s : String) : lowerStr (lowerStr s) = lowerStr s := by
  simp only [lowerStr, data_mk, List.map_map]
  congr 1
  refine List.map_congr_left fun c _ => ?_
  simp [Function.comp, toLower_toLower]


/-- Claim C2: instruction classification is total and evaluated by
case-insensitive substring containment in strict priority order (SciFiTheme,
then DarkMode, then AddPricing, then AccentRecolor, otherwise Regenerate):
lowercasing the instruction does not change the result, each variant is
returned exactly when its keywords occur (and no earlier rule fired),
`"pricing and dark mode"` classifies as DarkMode and `"crimson sci-fi"` as
SciFiTheme. -/
theorem classify_priority_cascade :
    (∀ s : String, classify (lowerStr s) = classify s) ∧
    (∀ s : String,
      (classify s = TransformationKind.SciFiTheme ↔
        (containsSubstr (lowerStr s) "sci-fi" = true ∨
         containsSubstr (lowerStr s) "sci fi" = true)) ∧
      (classify s = TransformationKind.DarkMode ↔
        (¬(containsSubstr (lowerStr s) "sci-fi" = true ∨
           containsSubstr (lowerStr s) "sci fi" = true) ∧
         (containsSubstr (lowerStr s) "make it dark" = true ∨
          containsSubstr (lowerStr s) "dark mode" = true))) ∧
      (classify s = TransformationKind.AddPricing ↔
        (¬(containsSubstr (lowerStr s) "sci-fi" = true ∨
           containsSubstr (lowerStr s) "sci fi" = true) ∧
         ¬(containsSubstr (lowerStr s) "make it dark" = true ∨
           containsSubstr (lowerStr s) "dark mode" = true) ∧
         (containsSubstr (lowerStr s) "add pricing" = true ∨
          containsSubstr (lowerStr s) "pricing" = true))) ∧
      (classify s = TransformationKind.AccentRecolor ↔
        (¬(containsSubstr (lowerStr s) "sci-fi" = true ∨
           containsSubstr (lowerStr s) "sci fi" = true) ∧
         ¬(containsSubstr (lowerStr s) "make it dark" = true ∨
           containsSubstr (lowerStr s) "dark mode" = true) ∧
         ¬(containsSubstr (lowerStr s) "add pricing" = true ∨
           containsSubstr (lowerStr s) "pricing" = true) ∧
         (containsSubstr (lowerStr s) "change accent" = true ∨
          containsSubstr (lowerStr s) "make it crimson" = true ∨
          containsSubstr (lowerStr s) "crimson" = true))) ∧
      (classify s = TransformationKind.Regenerate ↔
        (¬(containsSubstr (lowerStr s) "sci-fi" = true ∨
           containsSubstr (lowerStr s) "sci fi" = true) ∧
         ¬(containsSubstr (lowerStr s) "make it dark" = true ∨
           containsSubstr (lowerStr s) "dark mode" = true) ∧
         ¬(containsSubstr (lowerStr s) "add pricing" = true ∨
           containsSubstr (lowerStr s) "pricing" = true) ∧
         ¬(containsSubstr (lowerStr s) "change accent" = true ∨
           containsSubstr (lowerStr s) "make it crimson" = true ∨
           containsSubstr (lowerStr s) "crimson" = true)))) ∧
    classify "pricing and dark mode" = TransformationKind.DarkMode ∧
    classify "crimson sci-fi" = TransformationKind.SciFiTheme := by
  refine ⟨?_, ?_, by decide, by decide⟩
  · intro s
    simp only [classify, lowerStr_idem]
  · intro s
    unfold classify
    cases h1 : (containsSubstr (lowerStr s) "sci-fi" || containsSubstr (lowerStr s) "sci fi") <;>
      cases h2 : (containsSubstr (lowerStr s) "make it dark" || containsSubstr (lowerStr s) "dark mode") <;>
        cases h3 : (containsSubstr (lowerStr s) "add pricing" || containsSubstr (lowerStr s) "pricing") <;>
          cases h4 : (containsSubstr (lowerStr s) "change accent" || containsSubstr (lowerStr s) "make it crimson"
              || containsSubstr (lowerStr s) "crimson") <;>
            (simp_all; try (refine ⟨by tauto, ?_⟩; intros; simp_all))


theorem joinWith_cons (sep t : List Char) (ts : List (List Char)) (h : ts ≠ []) :
    joinWith sep (t :: ts) = t ++ sep ++ joinWith sep ts := by
  cases ts with
  | nil => exact absurd rfl h
  | cons t2 ts2 => rfl

theorem replStructure (pat rep : List Char) (hp : pat ≠ []) :
    ∀ n s, List.length s ≤ n →
      ∃ segs : List (List Char), segs ≠ [] ∧
        (∀ t ∈ segs, ¬ pat <:+: t) ∧
        s = joinWith pat segs ∧
        replFuel pat rep n s = joinWith rep segs := by
  intro n
  induction n with
  | zero =>
    intro s hs
    have hnil : s = [] := List.eq_nil_of_length_eq_zero (Nat.le_zero.mp hs)
    subst hnil
    refine ⟨[[]], by simp, ?_, rfl, rfl⟩
    intro t ht hinf
    simp only [List.mem_singleton] at ht
    subst ht
    exact hp (List.eq_nil_of_infix_nil hinf)
  | succ n ih =>
    intro s hs
    cases s with
    | nil =>
      refine ⟨[[]], by simp, ?_, rfl, rfl⟩
      intro t ht hinf
      simp only [List.mem_singleton] at ht
      subst ht
      exact hp (List.eq_nil_of_infix_nil hinf)
    | cons c cs =>
      by_cases hpre : hasPrefixL pat (c :: cs) = true
      · obtain ⟨t, ht⟩ := (hasPrefixL_iff pat (c :: cs)).mp hpre
        obtain ⟨p, ps, rfl⟩ : ∃ p ps, pat = p :: ps := by
          cases pat with
          | nil => exact absurd rfl hp
          | cons p ps => exact ⟨p, ps, rfl⟩
        have ht2 : p :: (ps ++ t) = c :: cs := by simpa using ht
        have hcs : cs = ps ++ t := by
          injection ht2 with h1 h2
          exact h2.symm
        have hlt : t.length ≤ n := by
          have hlen : (c :: cs).length ≤ n + 1 := hs
          simp only [hcs, List.length_cons, List.length_append] at hlen
          omega
        obtain ⟨segs, hne, hfree, hseq, hrepl⟩ := ih t hlt
        refine ⟨[] :: segs, by simp, ?_, ?_, ?_⟩
        · intro u hu
          rcases List.mem_cons.mp hu with h0 | h0
          · subst h0
            intro hinf
            exact hp (List.eq_nil_of_infix_nil hinf)
          · exact hfree u h0
        · rw [joinWith_cons _ _ _ hne, List.nil_append, ← hseq, ← ht]
        · simp only [replFuel]
          rw [if_pos (by simp [hpre])]
          have hdrop : List.drop ((p :: ps).length - 1) cs = t := by
            simp only [hcs, List.length_cons, Nat.add_sub_cancel, List.drop_left]
          rw [hdrop, hrepl, joinWith_cons _ _ _ hne, List.nil_append]
      · have hcs : cs.length ≤ n := by
          simp only [List.length_cons] at hs
          omega
        obtain ⟨segs, hne, hfree, hseq, hrepl⟩ := ih cs hcs
        obtain ⟨t, ts, rfl⟩ : ∃ t ts, segs = t :: ts := by
          cases segs with
          | nil => exact absurd rfl hne
          | cons t ts => exact ⟨t, ts, rfl⟩
        have htp : t <+: cs := by
          cases ts with
          | nil =>
            simp only [joinWith] at hseq
            exact ⟨[], by simp [hseq]⟩
          | cons t2 ts2 =>
            exact ⟨pat ++ joinWith pat (t2 :: ts2),
              by rw [hseq, joinWith_cons pat t (t2 :: ts2) (by simp)]; simp⟩
        refine ⟨(c :: t) :: ts, by simp, ?_, ?_, ?_⟩
        · intro u hu
          rcases List.mem_cons.mp hu with h0 | h0
          · subst h0
            intro hinf
            obtain ⟨u1, u2, huv⟩ := hinf
            cases u1 with
            | nil =>
              have hpfx : pat <+: c :: t := ⟨u2, by simpa using huv⟩
              have hpfx2 : pat <+: c :: cs :=
                hpfx.trans (List.cons_prefix_cons.mpr ⟨rfl, htp⟩)
              exact hpre ((hasPrefixL_iff pat (c :: cs)).mpr hpfx2)
            | cons d ds =>
              have huv2 : d :: (ds ++ pat ++ u2) = c :: t := by simpa using huv
              injection huv2 with h1 h2
              exact hfree t (List.mem_cons_self t ts) ⟨ds, u2, h2⟩
          · exact hfree u (List.mem_cons_of_mem t h0)
        · cases ts with
          | nil =>
            simp only [joinWith] at hseq ⊢
            rw [hseq]
          | cons t2 ts2 =>
            rw [joinWith_cons pat t (t2 :: ts2) (by simp)] at hseq
            rw [joinWith_cons pat (c :: t) (t2 :: ts2) (by simp), hseq]
            simp
        · simp only [replFuel]
          rw [if_neg (by simp [hpre])]
          rw [hrepl]
          cases ts with
          | nil => simp only [joinWith]
          | cons t2 ts2 =>
            rw [joinWith_cons rep t (t2 :: ts2) (by simp),
              joinWith_cons rep (c :: t) (t2 :: ts2) (by simp)]
            simp


/-- Claim C4: for every project document and every instruction that
classifies as DarkMode, the edit returns the note `"Darkened base colors"`
and a new document in which only the base background color token `#0b0b10`
is replaced by the darker literal `#0a0a0a`: the old document splits into
segments free of the token, separated by its occurrences, and the new
document is the same segments separated by the replacement — every other
part is byte-identical. -/
theorem darkMode_replaces_only_background_token
    (prompt html message : String) (year : Nat)
    (h : classify message = TransformationKind.DarkMode) :
    (applyChatEdit prompt html message year).2 = "Darkened base colors" ∧
    ∃ segs : List (List Char), segs ≠ [] ∧
      (∀ t ∈ segs, ¬ ("#0b0b10" : String).data <:+: t) ∧
      html.data = joinWith ("#0b0b10" : String).data segs ∧
      (applyChatEdit prompt html message year).1.data =
        joinWith ("#0a0a0a" : String).data segs := by
  rw [applyChatEdit_dark h]
  refine ⟨rfl, ?_⟩
  obtain ⟨segs, h1, h2, h3, h4⟩ :=
    replStructure ("#0b0b10" : String).data ("#0a0a0a" : String).data (by decide)
      html.data.length html.data (Nat.le_refl _)
  exact ⟨segs, h1, h2, h3, h4⟩

/-- Witness for C4 at the instruction `"make it dark mode please"` and the
document `"a #0b0b10 b"`. -/
theorem darkMode_replaces_only_background_token_witness :
    classify "make it dark mode please" = TransformationKind.DarkMode ∧
    ((applyChatEdit "p" "a #0b0b10 b" "make it dark mode please" 0).2 =
        "Darkened base colors" ∧
     ∃ segs : List (List Char), segs ≠ [] ∧
       (∀ t ∈ segs, ¬ ("#0b0b10" : String).data <:+: t) ∧
       ("a #0b0b10 b" : String).data = joinWith ("#0b0b10" : String).data segs ∧
       (applyChatEdit "p" "a #0b0b10 b" "make it dark mode please" 0).1.data =
         joinWith ("#0a0a0a" : String).data segs) :=
  ⟨by decide,
   darkMode_replaces_only_background_token "p" "a #0b0b10 b"
     "make it dark mode please" 0 (by decide)⟩


theorem pySplitAux_chars : ∀ (s cur : List Char) (t : List Char),
    t ∈ pySplitAux cur s → ∀ c ∈ t, c ∈ s ∨ c ∈ cur := by
  intro s
  induction s with
  | nil =>
    intro cur t ht c hc
    simp only [pySplitAux] at ht
    split at ht
    · simp at ht
    · simp only [List.mem_singleton] at ht
      subst ht
      exact Or.inr (List.mem_reverse.mp hc)
  | cons a as ih =>
    intro cur t ht c hc
    simp only [pySplitAux] at ht
    split at ht
    · split at ht
      · rcases ih [] t ht c hc with h0 | h0
        · exact Or.inl (List.mem_cons_of_mem a h0)
        · simp at h0
      · rcases List.mem_cons.mp ht with h0 | h0
        · subst h0
          exact Or.inr (List.mem_reverse.mp hc)
        · rcases ih [] t h0 c hc with h1 | h1
          · exact Or.inl (List.mem_cons_of_mem a h1)
          · simp at h1
    · rcases ih (a :: cur) t ht c hc with h0 | h0
      · exact Or.inl (List.mem_cons_of_mem a h0)
      · rcases List.mem_cons.mp h0 with h1 | h1
        · subst h1
          exact Or.inl (List.mem_cons_self _ _)
        · exact Or.inr h1

/-- Claim C6 counterexample: at the prompt `"aB"` the code's title is `"Ab"`
(Python `str.capitalize` lowercases the remaining characters) while the claim
("remaining characters unchanged") predicts `"AB"`. -/
theorem title_keeps_rest_counterexample :
    (seo_from_prompt "aB").title = "Ab" ∧ claimTitle "aB" = "AB" ∧
    (seo_from_prompt "aB").title ≠ claimTitle "aB" := by decide

/-- Claim C6 (amended): for every prompt, the extracted title equals the
prompt trimmed of surrounding whitespace with its first character uppercased
and the remaining characters lowercased (Python `str.capitalize`), truncated
to 60 characters; an empty or whitespace-only prompt yields the fixed
fallback title. -/
theorem title_eq_amended (p : String) : (seo_from_prompt p).title = amendedTitle p := by
  unfold seo_from_prompt amendedTitle
  cases hsd : (pyStrip p).data with
  | nil => simp [pyCapitalize]
  | cons c cs => simp [pyCapitalize, List.take_succ_cons]

/-- Claim C7: for every prompt, the extracted keywords string is the join
with `", "` of the first 8 whitespace-separated tokens of the lowercased
prompt that consist entirely of alphabetic characters, kept in original
order; there are at most 8 tokens, each non-empty, all of whose characters
are alphabetic and lowercase. -/
theorem keywords_first8_lowercase_alpha (p : String) :
    ∃ ts : List (List Char),
      ts = ((pySplit (lowerStr p).data).filter pyIsAlphaTok).take 8 ∧
      (seo_from_prompt p).keywords = joinWithStr ", " ts ∧
      ts.length ≤ 8 ∧
      ts.Sublist (pySplit (lowerStr p).data) ∧
      ∀ t ∈ ts, t ≠ [] ∧ ∀ c ∈ t, c.isAlpha = true ∧ c.isLower = true := by
  refine ⟨_, rfl, rfl, ?_, ?_, ?_⟩
  · exact List.length_take_le 8 _
  · exact (List.take_sublist 8 _).trans (List.filter_sublist _)
  · intro t ht
    have ht2 := List.mem_of_mem_take ht
    have hmem := (List.mem_filter.mp ht2).1
    have hq := (List.mem_filter.mp ht2).2
    simp only [pyIsAlphaTok, Bool.and_eq_true, Bool.not_eq_true',
      List.isEmpty_eq_false, List.all_eq_true] at hq
    refine ⟨?_, ?_⟩
    · intro hnil
      rw [hnil] at hq
      simp at hq
    · intro c hc
      have halpha : c.isAlpha = true := hq.2 c hc
      refine ⟨halpha, ?_⟩
      have hcin : c ∈ (lowerStr p).data := by
        rcases pySplitAux_chars (lowerStr p).data [] t hmem c hc with h0 | h0
        · exact h0
        · simp at h0
      simp only [lowerStr, data_mk, List.mem_map] at hcin
      obtain ⟨x, _, hx⟩ := hcin
      rw [← hx] at halpha ⊢
      exact isLower_of_isAlpha_toLower x halpha

/-- Claim C3: after every mutation of a project — creation, chat edit,
direct code replacement — the versions list is non-empty, each edit grows it
by exactly one entry, and the stored current document (`html`) equals the
`html` of the most recently appended versions entry. -/
theorem versions_grow_and_match_current :
    (∀ (x : Option String) (prompt : String) (nm : Option String) (y : Nat),
      (create_project x prompt nm y).versions.length = 1 ∧
      (create_project x prompt nm y).versions ≠ [] ∧
      (create_project x prompt nm y).versions.getLast? =
        some { html := (create_project x prompt nm y).html,
               note := "Initial generation" }) ∧
    (∀ (p : Project) (newHtml : String),
      (update_code_found p newHtml).versions.length = p.versions.length + 1 ∧
      (update_code_found p newHtml).versions ≠ [] ∧
      (update_code_found p newHtml).versions.getLast? =
        some { html := (update_code_found p newHtml).html, note := "Manual edit" }) ∧
    (∀ (p : Project) (msg : String) (y : Nat),
      (project_chat_found p msg y).1.versions.length = p.versions.length + 1 ∧
      (project_chat_found p msg y).1.versions ≠ [] ∧
      ∃ e : VersionEntry,
        (project_chat_found p msg y).1.versions.getLast? = some e ∧
        e.html = (project_chat_found p msg y).1.html) := by
  refine ⟨?_, ?_, ?_⟩
  · intro x prompt nm y
    refine ⟨rfl, by simp [create_project], rfl⟩
  · intro p newHtml
    refine ⟨by simp [update_code_found], by simp [update_code_found], ?_⟩
    simp [update_code_found, List.getLast?_concat]
  · intro p msg y
    refine ⟨by simp [project_chat_found], by simp [project_chat_found], ?_⟩
    refine ⟨{ html := (applyChatEdit p.prompt p.html msg y).1,
              note := (applyChatEdit p.prompt p.html msg y).2 }, ?_, rfl⟩
    simp [project_chat_found, List.getLast?_concat]

/-- Claim C8: for every instruction that matches no classification rule, the
edit builds the combined string `"{prompt} — {instruction}"`, re-runs the
full document synthesizer on it, returns the note
`"Regenerated site with new instruction"`, and discards the incrementally
edited current document (the result does not depend on it). -/
theorem regenerate_combines_prompt_and_discards_document
    (prompt html message : String) (year : Nat)
    (h : classify message = TransformationKind.Regenerate) :
    applyChatEdit prompt html message year =
      (generate_site_html (prompt ++ " — " ++ message) defaultAccent year,
       "Regenerated site with new instruction") ∧
    ∀ html' : String,
      applyChatEdit prompt html message year = applyChatEdit prompt html' message year := by
  refine ⟨applyChatEdit_regen h, fun html' => ?_⟩
  rw [applyChatEdit_regen h, applyChatEdit_regen h]

/-- Witness for C8 at the unmatched instruction `"I want a retro 8-bit vibe"`. -/
theorem regenerate_combines_witness :
    classify "I want a retro 8-bit vibe" = TransformationKind.Regenerate ∧
    (applyChatEdit "p" "h" "I want a retro 8-bit vibe" 0 =
      (generate_site_html ("p" ++ " — " ++ "I want a retro 8-bit vibe") defaultAccent 0,
       "Regenerated site with new instruction") ∧
     ∀ html' : String,
       applyChatEdit "p" "h" "I want a retro 8-bit vibe" 0 =
         applyChatEdit "p" html' "I want a retro 8-bit vibe" 0) :=
  ⟨by decide,
   regenerate_combines_prompt_and_discards_document "p" "h"
     "I want a retro 8-bit vibe" 0 (by decide)⟩

/-- Claim C1 (evaluation at the failing input): the `$push` document of
`project_chat` is a Python dict literal with a duplicated `"history"` key, so
for the chat message `"make it dark"` against `sampleProject` only the
assistant entry is appended to the conversation history — the paired
`{role: user, content: instruction}` entry is dropped, contradicting the
append-in-pairs claim. -/
theorem chat_drops_user_history_entry :
    (project_chat_found sampleProject "make it dark" 0).1.history =
      [{ role := "user", content := "p" },
       { role := "assistant", content := "Generated initial site" },
       { role := "assistant", content := "Darkened base colors" }] ∧
    ({ role := "user", content := "make it dark" } : HistoryEntry) ∉
      (project_chat_found sampleProject "make it dark" 0).1.history ∧
    (project_chat_found sampleProject "make it dark" 0).1.history.length =
      sampleProject.history.length + 1 := by decide

/-- Claim C9 counterexample: a project whose `versions` list is empty—
violating the data-model invariant — is edited normally by `project_chat`:
no error is raised, the edit result is returned and a version is appended. -/
theorem chat_accepts_invariant_violating_project :
    project_chat [("id1", emptyVersionsProject)] "id1" none "make it dark" 0 =
      some ({ emptyVersionsProject with
                html := "h",
                history := [{ role := "assistant", content := "Darkened base colors" }],
                versions := [{ html := "h", note := "Darkened base colors" }] },
            "Darkened base colors") := by decide

/-- Claim C9 (amended): `project_chat` performs no data-model validation and
raises no precondition error: every supplied project — including one with an
empty `versions` list — is edited, the edit appending its version entry. -/
theorem chat_never_validates_invariants (p : Project) (msg : String) (y : Nat)
    (h : p.versions = []) :
    (project_chat_found p msg y).1.versions.length = 1 := by
  simp [project_chat_found, h]

/-- Witness for the amended C9 at `emptyVersionsProject`. -/
theorem chat_never_validates_invariants_witness :
    emptyVersionsProject.versions = [] ∧
    (project_chat_found emptyVersionsProject "make it dark" 0).1.versions.length = 1 :=
  ⟨rfl, chat_never_validates_invariants emptyVersionsProject "make it dark" 0 rfl⟩

/-- Claim C10: requests without an `X-User-Id` header use the owner string
`"guest"` everywhere: a project created without the header gets
`user_id = "guest"`, and later header-less requests can read, list, and edit
that project — anonymous callers share a single owner namespace. -/
theorem guest_fallback_shared_namespace (pid prompt : String) (nm : Option String)
    (y : Nat) (msg : String) :
    (create_project none prompt nm y).user_id = "guest" ∧
    get_project [(pid, create_project none prompt nm y)] pid none =
      some (create_project none prompt nm y) ∧
    create_project none prompt nm y ∈
      list_projects [(pid, create_project none prompt nm y)] none ∧
    (project_chat [(pid, create_project none prompt nm y)] pid none msg y).isSome = true ∧
    (update_code [(pid, create_project none prompt nm y)] pid none "x").isSome = true := by
  have hguest : (create_project none prompt nm y).user_id = "guest" := rfl
  refine ⟨rfl, ?_, ?_, ?_, ?_⟩ <;>
    simp [get_project, list_projects, project_chat, update_code, find_one,
      headerOwner, pyOr, hguest]
